import Mathlib

/-!
Shallow embedding of the medikah-chat-api intake triage engine
(`src/services/triage.py`, `src/services/conversation_state.py`, and the
scheduling finalizer in `src/main.py`), together with theorems settling the
frozen claims about the conversation state machine.

Modelling conventions:
* Python strings are Lean `String`s; Python truthiness of an `Optional[str]`
  (`None` and `""` are falsy) is the `truthy` predicate below.
* `datetime` instants are modelled as `Int` (an abstract linear timestamp,
  e.g. epoch seconds); `datetime.isoformat` / `datetime.fromisoformat` are
  modelled by the injective decimal rendering `dt_isoformat` and a partial
  inverse `dt_fromisoformat`.
* Substring membership (Python `in`), `str.strip`, `str.lower`, `str.title`
  and whitespace collapsing are implemented over `List Char` so that concrete
  evaluations reduce in the kernel.  `str.lower`/`str.title` are modelled at
  ASCII precision (Python is Unicode-aware; no claim depends on the
  difference).
* Exceptions escaping `process_message` are modelled by an absent (`none`)
  turn result carrying the state as mutated up to the raise point (the
  in-memory store aliases the state object, so partial mutations persist).
  Two such raise points exist in the source and both are `AttributeError`s
  caused by names the data model never defines:
  1. `ConversationStage.CONFIRM_IDENTITY` (`triage.py` lines 229, 364, 368)
     is not a member of the `ConversationStage` enum
     (`conversation_state.py` lines 21-35), so reading it raises;
  2. `intake.patient_timezone` (`triage.py` lines 341-342, 405) is not a
     field of the `slots=True` dataclass `IntakeHistory`, so reading or
     assigning it raises.
* The external LLM responder (`AITriageResponseGenerator.generate_response`,
  returning `none` on failure/timeout) is injected as a function parameter of
  the engine configuration, mirroring the dependency-injection shape of
  `TriageConversationEngine.__init__`.
-/

namespace Medikah

/-! ## Python string primitives -/

/-- Truthiness of a Python `Optional[str]`: `None` and `""` are falsy. -/
def truthy : Option String → Bool
  | none => false
  | some s => s != ""

/-- Contiguous-sublist test on character lists: Python `pat in s`. -/
def occursIn (pat : List Char) : List Char → Bool
  | [] => pat.isEmpty
  | c :: rest => pat.isPrefixOf (c :: rest) || occursIn pat rest

/-- Python `pat in s` for strings (case-sensitive substring containment). -/
def pyIn (pat s : String) : Bool := occursIn pat.data s.data

/-- Python `str.lower()` (ASCII model). -/
def pyLower (s : String) : String := String.mk (s.data.map Char.toLower)

/-- Python `str.strip()`: drop leading and trailing whitespace. -/
def pyStrip (s : String) : String :=
  String.mk (((s.data.dropWhile Char.isWhitespace).reverse.dropWhile
    Char.isWhitespace).reverse)

/-- Collapse each maximal run of whitespace into a single space
(`re.sub(r"\s+", " ", s)`).  The flag records whether the previous
character was whitespace. -/
def collapseWsAux : Bool → List Char → List Char
  | _, [] => []
  | prevWs, c :: rest =>
    if c.isWhitespace then
      if prevWs then collapseWsAux true rest
      else ' ' :: collapseWsAux true rest
    else c :: collapseWsAux false rest

/-- Python `str.title()` (ASCII model): uppercase every alphabetic character
that follows a non-alphabetic one, lowercase the rest of each run. -/
def pyTitleAux : Bool → List Char → List Char
  | _, [] => []
  | prevAlpha, c :: rest =>
    if c.isAlpha then
      (if prevAlpha then c.toLower else c.toUpper) :: pyTitleAux true rest
    else c :: pyTitleAux false rest

/-! ## Data model (`src/services/conversation_state.py`) -/

/-- `ConversationStage` — lifecycle stages for the intake conversation.
Exactly the twelve members of the source enum.  Note that the source enum
defines no `CONFIRM_IDENTITY` member even though `triage.py` refers to
`ConversationStage.CONFIRM_IDENTITY`; those references raise
`AttributeError` at run time. -/
inductive ConversationStage where
  | welcome
  | collect_name
  | collect_email
  | collect_symptoms
  | collect_history
  | collect_timing
  | confirm_summary
  | confirm_appointment
  | scheduled
  | follow_up
  | completed
  | emergency_escalated
deriving DecidableEq, Repr

/-- `.value` of a stage (the string payload of the `str`-enum). -/
def ConversationStage.value : ConversationStage → String
  | .welcome => "welcome"
  | .collect_name => "collect_name"
  | .collect_email => "collect_email"
  | .collect_symptoms => "collect_symptoms"
  | .collect_history => "collect_history"
  | .collect_timing => "collect_timing"
  | .confirm_summary => "confirm_summary"
  | .confirm_appointment => "confirm_appointment"
  | .scheduled => "scheduled"
  | .follow_up => "follow_up"
  | .completed => "completed"
  | .emergency_escalated => "emergency_escalated"

/-- `ConversationStage(v)` — value lookup; raises (`none`) on an unknown
value. -/
def stageOfValue (v : String) : Option ConversationStage :=
  if v = "welcome" then some .welcome
  else if v = "collect_name" then some .collect_name
  else if v = "collect_email" then some .collect_email
  else if v = "collect_symptoms" then some .collect_symptoms
  else if v = "collect_history" then some .collect_history
  else if v = "collect_timing" then some .collect_timing
  else if v = "confirm_summary" then some .confirm_summary
  else if v = "confirm_appointment" then some .confirm_appointment
  else if v = "scheduled" then some .scheduled
  else if v = "follow_up" then some .follow_up
  else if v = "completed" then some .completed
  else if v = "emergency_escalated" then some .emergency_escalated
  else none

/-- One entry of the rolling message history (a `{"role": .., "content": ..}`
dict in the source). -/
structure ChatMessage where
  role : String
  content : String
deriving DecidableEq, Repr

/-- `IntakeHistory` — the `slots=True` dataclass of collected intake data.
The source declares no `patient_timezone` field, so the engine's accesses to
`intake.patient_timezone` raise `AttributeError`; this structure faithfully
omits the field. -/
structure IntakeHistory where
  patient_name : Option String := none
  patient_email : Option String := none
  symptom_overview : Option String := none
  symptom_history : Option String := none
  preferred_time_utc : Option Int := none
  locale_preference : Option String := none
  emergency_flag : Bool := false
  appointment_id : Option String := none
  appointment_confirmed_at : Option Int := none
  notes : List String := []
  education_shared : Bool := false
  message_history : List ChatMessage := []
deriving DecidableEq, Repr

/-- `IntakeHistory.add_message`: append a message and trim the history to the
most recent `max_history` (default 20) entries. -/
def IntakeHistory.add_message (h : IntakeHistory) (role content : String)
    (max_history : Nat := 20) : IntakeHistory :=
  let mh := h.message_history ++ [⟨role, content⟩]
  { h with message_history :=
      if mh.length > max_history then mh.drop (mh.length - max_history) else mh }

/-- `ConversationState` — mutable per-session state. -/
structure ConversationState where
  session_id : String
  stage : ConversationStage
  created_at : Int
  updated_at : Int
  intake : IntakeHistory := {}
deriving DecidableEq, Repr

/-! ## Keyword tables and stateless extractors (`src/services/triage.py`) -/

/-- `EMERGENCY_KEYWORDS` — fixed bilingual emergency keyword set. -/
def EMERGENCY_KEYWORDS : List String :=
  ["chest pain", "shortness of breath", "difficulty breathing",
   "trouble breathing", "bleeding", "unconscious", "can\x27t breathe",
   "cannot breathe", "suicidal", "overdose", "stroke", "heart attack",
   "severe pain", "numbness",
   "dolor de pecho", "falta de aire", "dificultad para respirar", "sangrado",
   "inconsciente", "no puedo respirar", "sobredosis", "derrame", "infarto",
   "dolor severo", "dolor intenso", "entumecimiento"]

/-- `AFFIRMATIVE_WORDS` — bilingual affirmative phrase set. -/
def AFFIRMATIVE_WORDS : List String :=
  ["yes", "yep", "yeah", "affirmative", "please", "sure", "ok", "okay",
   "correct", "right", "good", "great", "perfect", "looks good",
   "that\x27s right", "that\x27s correct", "confirm", "go ahead", "do it",
   "book", "schedule", "let\x27s do it", "sounds good", "all good", "fine",
   "absolutely", "of course", "thanks", "thank you", "that works",
   "works for me", "let\x27s go", "yup",
   "sí", "si", "claro", "por favor", "dale", "de acuerdo", "está bien",
   "correcto", "bien", "perfecto", "todo bien", "adelante", "confírmalo",
   "agéndalo", "listo", "eso es", "confirmado", "confirmo", "todo listo",
   "gracias", "eso", "va", "vamos", "sale"]

/-- `NEGATIVE_WORDS` — bilingual negative phrase set. -/
def NEGATIVE_WORDS : List String :=
  ["no", "nope", "nah", "not now", "later",
   "no gracias", "ahora no", "después", "luego"]

/-- `_detect_emergency`: case-insensitive substring scan over the fixed
keyword set. -/
def detect_emergency (text : String) : Bool :=
  EMERGENCY_KEYWORDS.any (fun keyword => pyIn keyword (pyLower text))

/-- `_has_word`: case-insensitive substring scan over a phrase list. -/
def has_word (text : String) (words : List String) : Bool :=
  words.any (fun word => pyIn word (pyLower text))

/-- `_sanitize_name`: strip, collapse internal whitespace, title-case. -/
def sanitize_name (raw : String) : String :=
  String.mk (pyTitleAux false (collapseWsAux false (pyStrip raw).data))

/-- The `_spanish_markers` tuple of the locale-detection heuristic inside
`process_message`. -/
def spanish_markers : List String :=
  ["hola", "buenos", "tengo", "estoy", "quiero", "necesito",
   "dolor", "siento", "ayuda", "cómo", "qué", "por favor",
   "gracias", "médico", "cita", "salud"]

/-! ## Turn results and engine configuration -/

/-- `TriageAction` — an optional CTA shown alongside a response. -/
structure TriageAction where
  label : String
  url : String
deriving DecidableEq, Repr

/-- `TriageResult` — computed response for a conversation turn. -/
structure TriageResult where
  reply : String
  stage : ConversationStage
  session_id : String
  actions : List TriageAction := []
  appointment_confirmed : Bool := false
  emergency_noted : Bool := false
  should_schedule : Bool := false
deriving DecidableEq, Repr

/-- The constructor arguments of `TriageConversationEngine`, with the
external LLM responder (`AITriageResponseGenerator.generate_response`,
returning `none` on failure/timeout) injected as a function. -/
structure EngineConfig where
  on_call_doctor_name : String
  doxy_room_url : String
  aiResponder : Option (String → ConversationStage → IntakeHistory →
    Option String → Option String) := none

/-- Outcome of one `process_message` call.  `result = none` models an
exception (`AttributeError`) escaping the call; `state` is the session state
as mutated up to that point (the in-memory store aliases the state object, so
partial mutations persist).  `stored` records whether `store.update` ran. -/
structure Turn where
  state : ConversationState
  stored : Bool
  result : Option TriageResult
deriving Repr

/-! ## Response generation -/

/-- Render `x or '—'` for summary lines. -/
def orDash : Option String → String
  | none => "—"
  | some s => if s = "" then "—" else s

/-- `build_summary`: bulleted summary of collected intake fields. -/
def build_summary (state : ConversationState) : String :=
  let i := state.intake
  let lines := ["• Name: " ++ orDash i.patient_name,
    "• Contact email: " ++ orDash i.patient_email,
    "• Primary concern: " ++ orDash i.symptom_overview,
    "• Symptom details: " ++ orDash i.symptom_history]
  let lines := lines ++ (match i.preferred_time_utc with
    | some t => ["• Preferred appointment time (UTC): " ++ toString t]
    | none => [])
  let lines := lines ++ (match i.locale_preference with
    | some l => if l = "" then [] else ["• Language preference: " ++ l]
    | none => [])
  String.intercalate "\n" lines

/-- `_fallback_response` (`triage.py` lines 220-279).  The first branch
returns the `WELCOME` template; the second branch's condition
(`elif stage == ConversationStage.CONFIRM_IDENTITY:`, line 229) reads an
attribute the enum does not define, so for every other stage the function
raises `AttributeError` (modelled as `none`) and the remaining per-stage
templates are unreachable. -/
def fallback_response (stage : ConversationStage) : Option String :=
  if stage = .welcome then
    some ("Welcome to Medikah! I\x27m here to help you connect with a doctor. " ++
      "What brings you in today? How are you feeling?")
  else none

/-- The fixed emergency reply used when the AI path yields nothing
(inlined in `process_message`, lines 322-328 — not `_fallback_response`). -/
def emergency_fallback_text : String :=
  "Your symptoms sound urgent. Please call your local " ++
  "emergency number or go to the nearest emergency room " ++
  "immediately. I\x27ll pause scheduling and remain here if " ++
  "you need non-urgent information."

/-- The early-return reply for a message that is empty after stripping. -/
def empty_prompt : String :=
  "I\x27m ready when you are. Could you share a bit more so I " ++
  "can prepare the doctor?"

/-- `response = None; if ai: response = ai(...); if not response: fallback`
for a total fallback (Python treats both `None` and `""` as no response). -/
def aiOrFallback
    (ai : Option (String → ConversationStage → IntakeHistory →
      Option String → Option String))
    (ctx : String) (stage : ConversationStage) (intake : IntakeHistory)
    (locale : Option String) (fallback : String) : String :=
  match ai with
  | some f =>
    match f ctx stage intake locale with
    | some r => if r = "" then fallback else r
    | none => fallback
  | none => fallback

/-! ## `process_message` (`triage.py` lines 285-488) -/

/-- The guard of identity pre-population (lines 295-296): at `WELCOME`, with
both auth hints truthy and both intake identity fields still falsy. -/
def identityPrepopCond (st : ConversationState) (pn pe : Option String) :
    Prop :=
  st.stage = ConversationStage.welcome ∧ truthy pn = true ∧ truthy pe = true
    ∧ ¬ truthy st.intake.patient_name = true
    ∧ ¬ truthy st.intake.patient_email = true

instance (st : ConversationState) (pn pe : Option String) :
    Decidable (identityPrepopCond st pn pe) := by
  unfold identityPrepopCond
  infer_instance

/-- The audit note appended by identity pre-population (line 299). -/
def identity_from_auth_note (pn pe : Option String) : String :=
  "identity_from_auth: " ++ pn.getD "" ++ " <" ++ pe.getD "" ++ ">"

/-- Identity pre-population from auth (lines 294-299). -/
def prepopulateIdentity (st : ConversationState) (pn pe : Option String) :
    ConversationState :=
  if identityPrepopCond st pn pe then
    { st with intake := { st.intake with
        patient_name := some (sanitize_name (pn.getD "")),
        patient_email := some (pe.getD ""),
        notes := st.intake.notes ++ [identity_from_auth_note pn pe] } }
  else st

/-- Locale auto-detection (lines 344-356): an explicit truthy hint wins,
otherwise Spanish marker words in the text set `"es"`. -/
def detectLocale (st : ConversationState) (text : String)
    (locale : Option String) : ConversationState :=
  if truthy st.intake.locale_preference then st
  else if truthy locale then
    { st with intake := { st.intake with locale_preference := locale } }
  else if spanish_markers.any (fun w => pyIn w (pyLower text)) then
    { st with intake := { st.intake with locale_preference := some "es" } }
  else st

/-- The emergency short-circuit (lines 311-338): set the sticky flag, append
the audit note, force the stage, generate a response (AI or the inline
fallback text), record both messages, touch and store. -/
def emergencyTurn (cfg : EngineConfig) (now : Int) (st : ConversationState)
    (text : String) (locale : Option String) : Turn :=
  let intake1 := { st.intake with
      emergency_flag := true,
      notes := st.intake.notes ++ ["emergency_flagged: " ++ text] }
  let st1 := { st with
      stage := ConversationStage.emergency_escalated,
      intake := intake1 }
  let response := aiOrFallback cfg.aiResponder text st1.stage st1.intake
    locale emergency_fallback_text
  let intake2 := (st1.intake.add_message "user" text).add_message
    "assistant" response
  { state := { st1 with intake := intake2, updated_at := now },
    stored := true,
    result := some { reply := response
                     stage := ConversationStage.emergency_escalated
                     session_id := st1.session_id
                     emergency_noted := true } }

/-- The stage-machine block (lines 358-444).  Line 362 handles `WELCOME`:
with identity present, line 364 assigns `ConversationStage.CONFIRM_IDENTITY`,
an attribute the enum does not define, and raises `AttributeError` (`none`);
otherwise the stage advances to `COLLECT_SYMPTOMS`.  Every other stage falls
to the `elif` on line 368 whose condition reads the same missing attribute
and raises before any stage-specific logic runs, so lines 369-444 (identity
confirmation, symptom/name/email/timing collection, summary and appointment
confirmation) are unreachable and the `should_schedule` flag (second
component) always stays `false`: the assignments on lines 420 and 441 are
dead code. -/
def stageDispatch (st : ConversationState) :
    Option (ConversationState × Bool) :=
  if st.stage = ConversationStage.welcome then
    if truthy st.intake.patient_name ∧ truthy st.intake.patient_email then
      none
    else
      some ({ st with stage := ConversationStage.collect_symptoms }, false)
  else none

/-- Response selection (lines 446-472): the AI path is tried first with the
summary-augmented context (line 450's guard on `CONFIRM_SUMMARY` and a set
preferred time); a `None`/empty AI answer falls back to
`_fallback_response`, which raises `AttributeError` (`none`) for every stage
other than `WELCOME`. -/
def pickResponse (cfg : EngineConfig) (st : ConversationState)
    (text : String) (locale : Option String) : Option String :=
  let ai_context :=
    if st.stage = ConversationStage.confirm_summary
        ∧ st.intake.preferred_time_utc.isSome then
      text ++ "\n\n[SYSTEM: Here is the intake summary to present to the patient:\n"
        ++ build_summary st ++ "]"
    else text
  let aiResp : Option String :=
    match cfg.aiResponder with
    | some f =>
      match f ai_context st.stage st.intake locale with
      | some r => if r = "" then none else some r
      | none => none
    | none => none
  match aiResp with
  | some r => some r
  | none => fallback_response st.stage

/-- End-of-turn bookkeeping (lines 474-488): record both messages, touch,
store, and assemble the `TriageResult`. -/
def finishTurn (now : Int) (st : ConversationState) (text response : String)
    (shouldSch : Bool) : Turn :=
  let intake2 := (st.intake.add_message "user" text).add_message
    "assistant" response
  { state := { st with intake := intake2, updated_at := now },
    stored := true,
    result := some { reply := response
                     stage := st.stage
                     session_id := st.session_id
                     appointment_confirmed := truthy st.intake.appointment_id
                     emergency_noted := st.intake.emergency_flag
                     should_schedule := shouldSch } }

/-- Response generation and bookkeeping after the stage machine (lines
446-488). -/
def responseStep (cfg : EngineConfig) (now : Int) (st : ConversationState)
    (text : String) (locale : Option String) (shouldSch : Bool) : Turn :=
  match pickResponse cfg st text locale with
  | some response => finishTurn now st text response shouldSch
  | none => { state := st, stored := false, result := none }

/-- `TriageConversationEngine.process_message` for one already-fetched
session state.  The `result = none` outcomes are the `AttributeError`s
described on `stageDispatch`, `fallback_response` and — for a truthy
`timezone` hint — line 341's read of the undeclared
`intake.patient_timezone` slot. -/
def processMessage (cfg : EngineConfig) (now : Int)
    (state0 : ConversationState) (message : String)
    (locale tz pn pe : Option String) : Turn :=
  let text := pyStrip message
  let st1 := prepopulateIdentity state0 pn pe
  if text = "" then
    { state := st1, stored := false,
      result := some { reply := empty_prompt
                       stage := st1.stage
                       session_id := st1.session_id } }
  else if detect_emergency text then
    emergencyTurn cfg now st1 text locale
  else if truthy tz then
    { state := st1, stored := false, result := none }
  else
    let st2 := detectLocale st1 text locale
    match stageDispatch st2 with
    | none => { state := st2, stored := false, result := none }
    | some (st3, shouldSch) => responseStep cfg now st3 text locale shouldSch

/-- Inputs of one conversation turn (the per-call arguments of
`process_message`). -/
structure TurnInput where
  message : String
  locale : Option String := none
  tz : Option String := none
  pn : Option String := none
  pe : Option String := none
  now : Int := 0
deriving Repr

/-- Fold a list of turns over the session state (each call continues from
the state as mutated by the previous call, whether or not it raised). -/
def processTurns (cfg : EngineConfig) (st : ConversationState) :
    List TurnInput → ConversationState
  | [] => st
  | inp :: rest =>
    processTurns cfg
      (processMessage cfg inp.now st inp.message inp.locale inp.tz
        inp.pn inp.pe).state rest

/-- The list of turn outcomes of a conversation, oldest first. -/
def turnOutputs (cfg : EngineConfig) (st : ConversationState) :
    List TurnInput → List Turn
  | [] => []
  | inp :: rest =>
    let t := processMessage cfg inp.now st inp.message inp.locale inp.tz
      inp.pn inp.pe
    t :: turnOutputs cfg t.state rest

/-! ## Scheduling finalizer (`src/main.py` lines 375-453) -/

/-- `finalize_chat_scheduling`, with the external `_perform_scheduling`
collaborator abstracted by the appointment id it returns: when name, email
and preferred time are all present, record the appointment id and
confirmation instant, move the stage to `SCHEDULED` and store; otherwise
report the missing fields and change nothing.  The second component is the
`appointment_confirmed` flag the caller receives. -/
def finalizeChatScheduling (st : ConversationState) (now : Int)
    (new_appointment_id : String) : ConversationState × Bool :=
  if ¬ truthy st.intake.patient_name ∨ ¬ truthy st.intake.patient_email
      ∨ st.intake.preferred_time_utc = none then
    (st, false)
  else
    ({ st with
        stage := ConversationStage.scheduled,
        updated_at := now,
        intake := { st.intake with
            appointment_id := some new_appointment_id,
            appointment_confirmed_at := some now } }, true)

/-! ## Session store (`src/services/conversation_state.py` lines 97-294),
in-memory backend (`get_supabase()` returns `None` when Supabase is not
configured; the Supabase path delegates to the external client). -/

/-- `SESSION_TTL_MINUTES = 90`. -/
def SESSION_TTL_MINUTES : Int := 90

/-- In-memory `ConversationStateStore`: the `_memory_store` dict and the
TTL (in seconds, `timedelta(minutes=ttl_minutes)`). -/
structure MemStore where
  ttl_seconds : Int := SESSION_TTL_MINUTES * 60
  data : String → Option ConversationState

/-- `now - state.updated_at > self._ttl`. -/
def isExpired (ttl now : Int) (st : ConversationState) : Bool :=
  now - st.updated_at > ttl

/-- `_prune`: evict every expired session. -/
def MemStore.prune (store : MemStore) (now : Int) : MemStore :=
  { store with data := fun sid =>
      match store.data sid with
      | some st => if isExpired store.ttl_seconds now st then none else some st
      | none => none }

/-- `get` (in-memory branch): prune, then look up; a hit is touched
(`updated_at := now`) in place. -/
def MemStore.get (store : MemStore) (now : Int) (sid : String) :
    MemStore × Option ConversationState :=
  let s1 := store.prune now
  match s1.data sid with
  | some st =>
    let st1 := { st with updated_at := now }
    ({ s1 with data := fun k => if k = sid then some st1 else s1.data k },
      some st1)
  | none => (s1, none)

/-- `create`: a fresh `WELCOME` state with empty intake; the stored id is the
given session id when truthy, otherwise a freshly generated token
(`secrets.token_urlsafe(16)`, abstracted as the `fresh` argument). -/
def MemStore.create (store : MemStore) (now : Int) (sid : Option String)
    (fresh : String) : MemStore × ConversationState :=
  let new_id := match sid with
    | some s => if s = "" then fresh else s
    | none => fresh
  let st : ConversationState :=
    { session_id := new_id, stage := ConversationStage.welcome,
      created_at := now, updated_at := now, intake := {} }
  let s1 := store.prune now
  ({ s1 with data := fun k => if k = new_id then some st else s1.data k }, st)

/-- `get_or_create`: reuse an existing live session for a truthy id, else
create. -/
def MemStore.get_or_create (store : MemStore) (now : Int)
    (sid : Option String) (fresh : String) : MemStore × ConversationState :=
  if truthy sid then
    match store.get now (sid.getD "") with
    | (s1, some st) => (s1, st)
    | (s1, none) => s1.create now sid fresh
  else store.create now sid fresh

/-- `update`: touch and write back. -/
def MemStore.update (store : MemStore) (now : Int) (st : ConversationState) :
    MemStore × ConversationState :=
  let st1 := { st with updated_at := now }
  ({ store with data := fun k =>
      if k = st1.session_id then some st1 else store.data k }, st1)

/-! ## Row serialization (`_state_to_row` / `_row_to_state`) -/

/-- `datetime.isoformat` on the abstract timestamp model: an injective
rendering to a string. -/
def dt_isoformat (t : Int) : String := toString t

/-- Decimal digit value of a character, if any. -/
def digitVal (c : Char) : Option Nat :=
  if 48 ≤ c.toNat ∧ c.toNat ≤ 57 then some (c.toNat - 48) else none

/-- Parse a non-empty digit run into a natural number. -/
def parseNatAux : List Char → Nat → Option Nat
  | [], acc => some acc
  | c :: rest, acc =>
    match digitVal c with
    | some d => parseNatAux rest (acc * 10 + d)
    | none => none

/-- `datetime.fromisoformat` on the abstract timestamp model: the partial
inverse of `dt_isoformat`; `none` models the `ValueError` raised on
unparseable input. -/
def dt_fromisoformat (s : String) : Option Int :=
  match s.data with
  | [] => none
  | '-' :: rest =>
    if rest.isEmpty then none
    else (parseNatAux rest 0).map (fun n => -(n : Int))
  | l => (parseNatAux l 0).map (fun n => (n : Int))

/-- The `conversation_sessions` row shape produced by `_state_to_row`
(`notes` and `message_history` travel as structured JSON values; the
`isinstance(notes, str)` branch of `_row_to_state` is for rows that reach it
as serialized text and never fires on a freshly built row). -/
structure SessionRow where
  session_id : String
  stage : String
  patient_name : Option String
  patient_email : Option String
  symptom_overview : Option String
  symptom_history : Option String
  preferred_time_utc : Option String
  locale_preference : Option String
  emergency_flag : Bool
  appointment_id : Option String
  appointment_confirmed_at : Option String
  notes : List String
  education_shared : Bool
  message_history : List ChatMessage
  created_at : String
  updated_at : String
deriving DecidableEq, Repr

/-- `_state_to_row`. -/
def state_to_row (state : ConversationState) : SessionRow :=
  let intake := state.intake
  { session_id := state.session_id,
    stage := state.stage.value,
    patient_name := intake.patient_name,
    patient_email := intake.patient_email,
    symptom_overview := intake.symptom_overview,
    symptom_history := intake.symptom_history,
    preferred_time_utc := intake.preferred_time_utc.map dt_isoformat,
    locale_preference := intake.locale_preference,
    emergency_flag := intake.emergency_flag,
    appointment_id := intake.appointment_id,
    appointment_confirmed_at :=
      intake.appointment_confirmed_at.map dt_isoformat,
    notes := intake.notes,
    education_shared := intake.education_shared,
    message_history := intake.message_history,
    created_at := dt_isoformat state.created_at,
    updated_at := dt_isoformat state.updated_at }

/-- Truthiness-guarded timestamp parse used by `_row_to_state`
(`if row.get(..):` — a falsy cell yields `None`, a truthy one is parsed and
may raise, modelled as the outer `none`). -/
def parseOptDT : Option String → Option (Option Int)
  | none => some none
  | some s => if s = "" then some none else (dt_fromisoformat s).map some

/-- `_row_to_state`; `none` models a raised exception (unknown stage value or
unparseable timestamp).  `row.get("message_history") or []` is the identity
on the list-valued cell modelled here. -/
def row_to_state (row : SessionRow) : Option ConversationState := do
  let preferred_time ← parseOptDT row.preferred_time_utc
  let confirmed_at ← parseOptDT row.appointment_confirmed_at
  let stage ← stageOfValue row.stage
  let created ← dt_fromisoformat row.created_at
  let updated ← dt_fromisoformat row.updated_at
  some { session_id := row.session_id
         stage := stage
         created_at := created
         updated_at := updated
         intake := { patient_name := row.patient_name
                     patient_email := row.patient_email
                     symptom_overview := row.symptom_overview
                     symptom_history := row.symptom_history
                     preferred_time_utc := preferred_time
                     locale_preference := row.locale_preference
                     emergency_flag := row.emergency_flag
                     appointment_id := row.appointment_id
                     appointment_confirmed_at := confirmed_at
                     notes := row.notes
                     education_shared := row.education_shared
                     message_history := row.message_history } }

/-! ## Helper lemmas on the engine components -/

theorem add_message_emergency_flag (h : IntakeHistory) (r c : String) :
    (h.add_message r c).emergency_flag = h.emergency_flag := rfl

theorem add_message_appointment_id (h : IntakeHistory) (r c : String) :
    (h.add_message r c).appointment_id = h.appointment_id := rfl

theorem add_message_notes (h : IntakeHistory) (r c : String) :
    (h.add_message r c).notes = h.notes := rfl

theorem add_message_patient_email (h : IntakeHistory) (r c : String) :
    (h.add_message r c).patient_email = h.patient_email := rfl

theorem add_message_preferred_time (h : IntakeHistory) (r c : String) :
    (h.add_message r c).preferred_time_utc = h.preferred_time_utc := rfl

theorem prepopulateIdentity_of_ne_welcome (st : ConversationState)
    (pn pe : Option String) (h : st.stage ≠ ConversationStage.welcome) :
    prepopulateIdentity st pn pe = st := by
  unfold prepopulateIdentity
  rw [if_neg]
  intro hc
  exact h hc.1

theorem prepopulateIdentity_of_not_args (st : ConversationState)
    (pn pe : Option String)
    (h : ¬ (truthy pn = true ∧ truthy pe = true)) :
    prepopulateIdentity st pn pe = st := by
  unfold prepopulateIdentity
  rw [if_neg]
  intro hc
  exact h ⟨hc.2.1, hc.2.2.1⟩

theorem prepopulateIdentity_of_truthy_name (st : ConversationState)
    (pn pe : Option String) (h : truthy st.intake.patient_name = true) :
    prepopulateIdentity st pn pe = st := by
  unfold prepopulateIdentity
  rw [if_neg]
  intro hc
  exact hc.2.2.2.1 h

theorem prepopulateIdentity_notes (st : ConversationState)
    (pn pe : Option String) :
    (prepopulateIdentity st pn pe).intake.notes
      = st.intake.notes
        ++ (if identityPrepopCond st pn pe
            then [identity_from_auth_note pn pe] else []) := by
  unfold prepopulateIdentity
  by_cases hc : identityPrepopCond st pn pe
  · rw [if_pos hc, if_pos hc]
  · rw [if_neg hc, if_neg hc, List.append_nil]

theorem prepopulateIdentity_stage (st : ConversationState)
    (pn pe : Option String) :
    (prepopulateIdentity st pn pe).stage = st.stage := by
  unfold prepopulateIdentity
  split <;> rfl

theorem prepopulateIdentity_emergency_flag (st : ConversationState)
    (pn pe : Option String) :
    (prepopulateIdentity st pn pe).intake.emergency_flag
      = st.intake.emergency_flag := by
  unfold prepopulateIdentity
  split <;> rfl

theorem prepopulateIdentity_appointment_id (st : ConversationState)
    (pn pe : Option String) :
    (prepopulateIdentity st pn pe).intake.appointment_id
      = st.intake.appointment_id := by
  unfold prepopulateIdentity
  split <;> rfl

theorem prepopulateIdentity_session_id (st : ConversationState)
    (pn pe : Option String) :
    (prepopulateIdentity st pn pe).session_id = st.session_id := by
  unfold prepopulateIdentity
  split <;> rfl

theorem detectLocale_shape (st : ConversationState) (text : String)
    (locale : Option String) :
    ∃ lp, detectLocale st text locale
      = { st with intake := { st.intake with locale_preference := lp } } := by
  unfold detectLocale
  split
  · exact ⟨st.intake.locale_preference, rfl⟩
  · split
    · exact ⟨locale, rfl⟩
    · split
      · exact ⟨some "es", rfl⟩
      · exact ⟨st.intake.locale_preference, rfl⟩

theorem detectLocale_stage (st : ConversationState) (text : String)
    (locale : Option String) :
    (detectLocale st text locale).stage = st.stage := by
  obtain ⟨lp, h⟩ := detectLocale_shape st text locale
  rw [h]

theorem detectLocale_emergency_flag (st : ConversationState) (text : String)
    (locale : Option String) :
    (detectLocale st text locale).intake.emergency_flag
      = st.intake.emergency_flag := by
  obtain ⟨lp, h⟩ := detectLocale_shape st text locale
  rw [h]

theorem detectLocale_appointment_id (st : ConversationState) (text : String)
    (locale : Option String) :
    (detectLocale st text locale).intake.appointment_id
      = st.intake.appointment_id := by
  obtain ⟨lp, h⟩ := detectLocale_shape st text locale
  rw [h]

theorem detectLocale_patient_name (st : ConversationState) (text : String)
    (locale : Option String) :
    (detectLocale st text locale).intake.patient_name
      = st.intake.patient_name := by
  obtain ⟨lp, h⟩ := detectLocale_shape st text locale
  rw [h]

theorem detectLocale_patient_email (st : ConversationState) (text : String)
    (locale : Option String) :
    (detectLocale st text locale).intake.patient_email
      = st.intake.patient_email := by
  obtain ⟨lp, h⟩ := detectLocale_shape st text locale
  rw [h]

theorem detectLocale_preferred_time (st : ConversationState) (text : String)
    (locale : Option String) :
    (detectLocale st text locale).intake.preferred_time_utc
      = st.intake.preferred_time_utc := by
  obtain ⟨lp, h⟩ := detectLocale_shape st text locale
  rw [h]

theorem detectLocale_notes (st : ConversationState) (text : String)
    (locale : Option String) :
    (detectLocale st text locale).intake.notes = st.intake.notes := by
  obtain ⟨lp, h⟩ := detectLocale_shape st text locale
  rw [h]

theorem responseStep_shape (cfg : EngineConfig) (now : Int)
    (st : ConversationState) (text : String) (locale : Option String)
    (b : Bool) :
    responseStep cfg now st text locale b
        = { state := st, stored := false, result := none }
    ∨ ∃ resp, responseStep cfg now st text locale b
        = finishTurn now st text resp b := by
  unfold responseStep
  cases pickResponse cfg st text locale with
  | none => exact Or.inl rfl
  | some r => exact Or.inr ⟨r, rfl⟩

theorem finishTurn_state_stage (now : Int) (st : ConversationState)
    (text response : String) (b : Bool) :
    (finishTurn now st text response b).state.stage = st.stage := rfl

theorem finishTurn_state_flag (now : Int) (st : ConversationState)
    (text response : String) (b : Bool) :
    (finishTurn now st text response b).state.intake.emergency_flag
      = st.intake.emergency_flag := rfl

theorem finishTurn_state_appointment_id (now : Int) (st : ConversationState)
    (text response : String) (b : Bool) :
    (finishTurn now st text response b).state.intake.appointment_id
      = st.intake.appointment_id := rfl

theorem finishTurn_state_notes (now : Int) (st : ConversationState)
    (text response : String) (b : Bool) :
    (finishTurn now st text response b).state.intake.notes
      = st.intake.notes := rfl

theorem finishTurn_state_patient_email (now : Int) (st : ConversationState)
    (text response : String) (b : Bool) :
    (finishTurn now st text response b).state.intake.patient_email
      = st.intake.patient_email := rfl

theorem finishTurn_result_spec (now : Int) (st : ConversationState)
    (text response : String) (b : Bool) :
    ∃ r, (finishTurn now st text response b).result = some r
      ∧ r.should_schedule = b ∧ r.stage = st.stage :=
  ⟨_, rfl, rfl, rfl⟩

theorem emergencyTurn_state_stage (cfg : EngineConfig) (now : Int)
    (st : ConversationState) (text : String) (locale : Option String) :
    (emergencyTurn cfg now st text locale).state.stage
      = ConversationStage.emergency_escalated := rfl

theorem emergencyTurn_state_flag (cfg : EngineConfig) (now : Int)
    (st : ConversationState) (text : String) (locale : Option String) :
    (emergencyTurn cfg now st text locale).state.intake.emergency_flag
      = true := rfl

theorem emergencyTurn_state_appointment_id (cfg : EngineConfig) (now : Int)
    (st : ConversationState) (text : String) (locale : Option String) :
    (emergencyTurn cfg now st text locale).state.intake.appointment_id
      = st.intake.appointment_id := rfl

theorem emergencyTurn_state_notes (cfg : EngineConfig) (now : Int)
    (st : ConversationState) (text : String) (locale : Option String) :
    (emergencyTurn cfg now st text locale).state.intake.notes
      = st.intake.notes ++ ["emergency_flagged: " ++ text] := rfl

theorem emergencyTurn_result_spec (cfg : EngineConfig) (now : Int)
    (st : ConversationState) (text : String) (locale : Option String) :
    ∃ r, (emergencyTurn cfg now st text locale).result = some r
      ∧ r.stage = ConversationStage.emergency_escalated
      ∧ r.emergency_noted = true ∧ r.should_schedule = false :=
  ⟨_, rfl, rfl, rfl, rfl⟩

theorem stageDispatch_none_of_ne_welcome (st : ConversationState)
    (h : st.stage ≠ ConversationStage.welcome) :
    stageDispatch st = none := by
  unfold stageDispatch
  rw [if_neg h]

theorem stageDispatch_none_of_identity (st : ConversationState)
    (hw : st.stage = ConversationStage.welcome)
    (hn : truthy st.intake.patient_name = true)
    (he : truthy st.intake.patient_email = true) :
    stageDispatch st = none := by
  unfold stageDispatch
  rw [if_pos hw, if_pos ⟨hn, he⟩]

theorem stageDispatch_welcome_advance (st : ConversationState)
    (hw : st.stage = ConversationStage.welcome)
    (h : ¬ (truthy st.intake.patient_name = true
      ∧ truthy st.intake.patient_email = true)) :
    stageDispatch st
      = some ({ st with stage := ConversationStage.collect_symptoms }, false) := by
  unfold stageDispatch
  rw [if_pos hw, if_neg h]

theorem stageDispatch_some (st out : ConversationState) (b : Bool)
    (h : stageDispatch st = some (out, b)) :
    b = false ∧ st.stage = ConversationStage.welcome
      ∧ out = { st with stage := ConversationStage.collect_symptoms } := by
  unfold stageDispatch at h
  split at h
  · split at h
    · exact absurd h (by simp)
    · next hw _ =>
      simp only [Option.some.injEq, Prod.mk.injEq] at h
      exact ⟨h.2.symm, hw, h.1.symm⟩
  · exact absurd h (by simp)

/-! ## Reduction lemmas for `processMessage` -/

theorem processMessage_of_empty (cfg : EngineConfig) (now : Int)
    (st : ConversationState) (message : String) (locale tz pn pe : Option String)
    (h : pyStrip message = "") :
    processMessage cfg now st message locale tz pn pe
      = { state := prepopulateIdentity st pn pe, stored := false,
          result := some { reply := empty_prompt
                           stage := (prepopulateIdentity st pn pe).stage
                           session_id :=
                             (prepopulateIdentity st pn pe).session_id } } := by
  simp only [processMessage, h, if_true]

theorem processMessage_of_emergency (cfg : EngineConfig) (now : Int)
    (st : ConversationState) (message : String) (locale tz pn pe : Option String)
    (hne : pyStrip message ≠ "")
    (hem : detect_emergency (pyStrip message) = true) :
    processMessage cfg now st message locale tz pn pe
      = emergencyTurn cfg now (prepopulateIdentity st pn pe)
          (pyStrip message) locale := by
  simp only [processMessage, hne, hem, if_true, if_false]

theorem processMessage_of_active (cfg : EngineConfig) (now : Int)
    (st : ConversationState) (message : String) (locale tz pn pe : Option String)
    (hne : pyStrip message ≠ "")
    (hem : detect_emergency (pyStrip message) = false) :
    processMessage cfg now st message locale tz pn pe
      = if truthy tz then
          { state := prepopulateIdentity st pn pe, stored := false,
            result := none }
        else
          match stageDispatch (detectLocale (prepopulateIdentity st pn pe)
              (pyStrip message) locale) with
          | none =>
            { state := detectLocale (prepopulateIdentity st pn pe)
                (pyStrip message) locale, stored := false, result := none }
          | some (st3, b) =>
            responseStep cfg now st3 (pyStrip message) locale b := by
  simp only [processMessage, hne, hem, if_false, Bool.false_eq_true]

/-! ## Preservation lemmas for `processMessage` -/

theorem bool_eq_false_of_ne_true {b : Bool} (h : ¬ b = true) : b = false := by
  cases b
  · rfl
  · exact absurd rfl h

theorem processMessage_emergency_flag_mono (cfg : EngineConfig) (now : Int)
    (st : ConversationState) (message : String) (locale tz pn pe : Option String)
    (h : st.intake.emergency_flag = true) :
    (processMessage cfg now st message locale tz pn pe).state.intake.emergency_flag
      = true := by
  by_cases h0 : pyStrip message = ""
  · rw [processMessage_of_empty cfg now st message locale tz pn pe h0]
    dsimp only
    rw [prepopulateIdentity_emergency_flag]
    exact h
  · by_cases h1 : detect_emergency (pyStrip message) = true
    · rw [processMessage_of_emergency cfg now st message locale tz pn pe h0 h1]
      exact emergencyTurn_state_flag cfg now _ (pyStrip message) locale
    · rw [processMessage_of_active cfg now st message locale tz pn pe h0
        (bool_eq_false_of_ne_true h1)]
      split
      · dsimp only
        rw [prepopulateIdentity_emergency_flag]
        exact h
      · cases hd : stageDispatch (detectLocale (prepopulateIdentity st pn pe)
            (pyStrip message) locale) with
        | none =>
          dsimp only
          rw [detectLocale_emergency_flag, prepopulateIdentity_emergency_flag]
          exact h
        | some p =>
          obtain ⟨st3, b⟩ := p
          dsimp only
          obtain ⟨hb, hw, hout⟩ := stageDispatch_some _ _ _ hd
          have hflag3 : st3.intake.emergency_flag = true := by
            rw [hout]
            dsimp only
            rw [detectLocale_emergency_flag, prepopulateIdentity_emergency_flag]
            exact h
          rcases responseStep_shape cfg now st3 (pyStrip message) locale b with
            hs | ⟨resp, hs⟩
          · rw [hs]
            exact hflag3
          · rw [hs, finishTurn_state_flag]
            exact hflag3

theorem processMessage_appointment_id_preserved (cfg : EngineConfig)
    (now : Int) (st : ConversationState) (message : String)
    (locale tz pn pe : Option String) :
    (processMessage cfg now st message locale tz pn pe).state.intake.appointment_id
      = st.intake.appointment_id := by
  by_cases h0 : pyStrip message = ""
  · rw [processMessage_of_empty cfg now st message locale tz pn pe h0]
    dsimp only
    rw [prepopulateIdentity_appointment_id]
  · by_cases h1 : detect_emergency (pyStrip message) = true
    · rw [processMessage_of_emergency cfg now st message locale tz pn pe h0 h1]
      rw [emergencyTurn_state_appointment_id]
      rw [prepopulateIdentity_appointment_id]
    · rw [processMessage_of_active cfg now st message locale tz pn pe h0
        (bool_eq_false_of_ne_true h1)]
      split
      · dsimp only
        rw [prepopulateIdentity_appointment_id]
      · cases hd : stageDispatch (detectLocale (prepopulateIdentity st pn pe)
            (pyStrip message) locale) with
        | none =>
          dsimp only
          rw [detectLocale_appointment_id, prepopulateIdentity_appointment_id]
        | some p =>
          obtain ⟨st3, b⟩ := p
          dsimp only
          obtain ⟨hb, hw, hout⟩ := stageDispatch_some _ _ _ hd
          have happ3 : st3.intake.appointment_id = st.intake.appointment_id := by
            rw [hout]
            dsimp only
            rw [detectLocale_appointment_id, prepopulateIdentity_appointment_id]
          rcases responseStep_shape cfg now st3 (pyStrip message) locale b with
            hs | ⟨resp, hs⟩
          · rw [hs]
            exact happ3
          · rw [hs, finishTurn_state_appointment_id]
            exact happ3

theorem processMessage_should_schedule_false (cfg : EngineConfig) (now : Int)
    (st : ConversationState) (message : String) (locale tz pn pe : Option String)
    (r : TriageResult)
    (h : (processMessage cfg now st message locale tz pn pe).result = some r) :
    r.should_schedule = false := by
  by_cases h0 : pyStrip message = ""
  · rw [processMessage_of_empty cfg now st message locale tz pn pe h0] at h
    dsimp only at h
    simp only [Option.some.injEq] at h
    rw [← h]
  · by_cases h1 : detect_emergency (pyStrip message) = true
    · rw [processMessage_of_emergency cfg now st message locale tz pn pe h0 h1] at h
      obtain ⟨r2, hr2, hstg2, hnoted2, hss2⟩ :=
        emergencyTurn_result_spec cfg now (prepopulateIdentity st pn pe)
          (pyStrip message) locale
      rw [hr2] at h
      simp only [Option.some.injEq] at h
      rw [← h]
      exact hss2
    · rw [processMessage_of_active cfg now st message locale tz pn pe h0
        (bool_eq_false_of_ne_true h1)] at h
      split at h
      · dsimp only at h
        exact absurd h (by simp)
      · rename_i htz
        cases hd : stageDispatch (detectLocale (prepopulateIdentity st pn pe)
            (pyStrip message) locale) with
        | none =>
          rw [hd] at h
          dsimp only at h
          exact absurd h (by simp)
        | some p =>
          obtain ⟨st3, b⟩ := p
          rw [hd] at h
          dsimp only at h
          obtain ⟨hb, hw, hout⟩ := stageDispatch_some _ _ _ hd
          rcases responseStep_shape cfg now st3 (pyStrip message) locale b with
            hs | ⟨resp, hs⟩
          · rw [hs] at h
            dsimp only at h
            exact absurd h (by simp)
          · rw [hs] at h
            obtain ⟨r3, hr3, hss3, hstg3⟩ :=
              finishTurn_result_spec now st3 (pyStrip message) resp b
            rw [hr3] at h
            simp only [Option.some.injEq] at h
            rw [← h]
            rw [hss3]
            exact hb

/-- Any message whose stripped text is non-empty and non-emergency, processed
at a stage other than `WELCOME`, raises `AttributeError` (the line-368 read
of the missing `CONFIRM_IDENTITY` member, or — with a truthy timezone hint —
the line-341 read of the missing `patient_timezone` slot), leaving the
stage, the collected fields, the notes and the stored email untouched and
never reaching `store.update`. -/
theorem processMessage_off_welcome_crash (cfg : EngineConfig) (now : Int)
    (st : ConversationState) (message : String) (locale tz pn pe : Option String)
    (hstage : st.stage ≠ ConversationStage.welcome)
    (hne : pyStrip message ≠ "")
    (hem : detect_emergency (pyStrip message) = false) :
    (processMessage cfg now st message locale tz pn pe).result = none
    ∧ (processMessage cfg now st message locale tz pn pe).stored = false
    ∧ (processMessage cfg now st message locale tz pn pe).state.stage = st.stage
    ∧ (processMessage cfg now st message locale tz pn pe).state.intake.patient_email
        = st.intake.patient_email
    ∧ (processMessage cfg now st message locale tz pn pe).state.intake.preferred_time_utc
        = st.intake.preferred_time_utc
    ∧ (processMessage cfg now st message locale tz pn pe).state.intake.notes
        = st.intake.notes := by
  rw [processMessage_of_active cfg now st message locale tz pn pe hne hem]
  rw [prepopulateIdentity_of_ne_welcome st pn pe hstage]
  split
  · exact ⟨rfl, rfl, rfl, rfl, rfl, rfl⟩
  · rw [stageDispatch_none_of_ne_welcome _
      (by rw [detectLocale_stage]; exact hstage)]
    dsimp only
    refine ⟨rfl, rfl, ?_, ?_, ?_, ?_⟩
    · rw [detectLocale_stage]
    · rw [detectLocale_patient_email]
    · rw [detectLocale_preferred_time]
    · rw [detectLocale_notes]

/-- At `WELCOME` with a pre-populated identity, the assignment on line 364
(`state.stage = ConversationStage.CONFIRM_IDENTITY`) raises
`AttributeError`: the turn produces no result. -/
theorem processMessage_welcome_identity_crash (cfg : EngineConfig) (now : Int)
    (st : ConversationState) (message : String) (locale tz pn pe : Option String)
    (hw : st.stage = ConversationStage.welcome)
    (hn : truthy st.intake.patient_name = true)
    (he : truthy st.intake.patient_email = true)
    (hne : pyStrip message ≠ "")
    (hem : detect_emergency (pyStrip message) = false) :
    (processMessage cfg now st message locale tz pn pe).result = none := by
  rw [processMessage_of_active cfg now st message locale tz pn pe hne hem]
  rw [prepopulateIdentity_of_truthy_name st pn pe hn]
  split
  · rfl
  · rw [stageDispatch_none_of_identity _
      (by rw [detectLocale_stage]; exact hw)
      (by rw [detectLocale_patient_name]; exact hn)
      (by rw [detectLocale_patient_email]; exact he)]

/-- At `WELCOME` without identity (neither in the intake nor supplied), the
stage advances to `COLLECT_SYMPTOMS` (line 366), whether or not the
subsequent response generation succeeds. -/
theorem processMessage_welcome_advance (cfg : EngineConfig) (now : Int)
    (st : ConversationState) (message : String) (locale tz pn pe : Option String)
    (hw : st.stage = ConversationStage.welcome)
    (hid : ¬ (truthy st.intake.patient_name = true
      ∧ truthy st.intake.patient_email = true))
    (hargs : ¬ (truthy pn = true ∧ truthy pe = true))
    (htz : ¬ truthy tz = true)
    (hne : pyStrip message ≠ "")
    (hem : detect_emergency (pyStrip message) = false) :
    (processMessage cfg now st message locale tz pn pe).state.stage
      = ConversationStage.collect_symptoms := by
  rw [processMessage_of_active cfg now st message locale tz pn pe hne hem]
  rw [prepopulateIdentity_of_not_args st pn pe hargs]
  rw [if_neg htz]
  rw [stageDispatch_welcome_advance _
    (by rw [detectLocale_stage]; exact hw)
    (by rw [detectLocale_patient_name, detectLocale_patient_email]; exact hid)]
  dsimp only
  rcases responseStep_shape cfg now
      ({ detectLocale st (pyStrip message) locale with
         stage := ConversationStage.collect_symptoms })
      (pyStrip message) locale false with hs | ⟨resp, hs⟩
  · rw [hs]
  · rw [hs, finishTurn_state_stage]

theorem processTurns_emergency_flag_mono (cfg : EngineConfig)
    (st : ConversationState) (inputs : List TurnInput)
    (h : st.intake.emergency_flag = true) :
    (processTurns cfg st inputs).intake.emergency_flag = true := by
  induction inputs generalizing st with
  | nil => exact h
  | cons inp rest ih =>
    rw [processTurns]
    exact ih _ (processMessage_emergency_flag_mono cfg inp.now st inp.message
      inp.locale inp.tz inp.pn inp.pe h)

theorem turnOutputs_should_schedule_false (cfg : EngineConfig)
    (st : ConversationState) (inputs : List TurnInput) :
    ∀ t ∈ turnOutputs cfg st inputs, ∀ r, t.result = some r →
      r.should_schedule = false := by
  induction inputs generalizing st with
  | nil =>
    intro t ht
    exact absurd ht (by simp [turnOutputs])
  | cons inp rest ih =>
    intro t ht r hr
    rw [turnOutputs] at ht
    rcases List.mem_cons.mp ht with h1 | h2
    · rw [h1] at hr
      exact processMessage_should_schedule_false cfg inp.now st inp.message
        inp.locale inp.tz inp.pn inp.pe r hr
    · exact ih _ t h2 r hr

/-! ## Store and serialization lemmas -/

theorem stageOfValue_value (s : ConversationStage) :
    stageOfValue s.value = some s := by
  cases s <;> rfl

theorem memStore_get_expired (store : MemStore) (now : Int) (sid : String)
    (st : ConversationState)
    (hlook : store.data sid = some st)
    (hexp : now - st.updated_at > store.ttl_seconds) :
    (store.get now sid).2 = none := by
  have hx : isExpired store.ttl_seconds now st = true := by
    unfold isExpired
    exact decide_eq_true hexp
  unfold MemStore.get MemStore.prune
  dsimp only
  rw [hlook]
  dsimp only
  rw [if_pos hx]

theorem memStore_get_or_create_expired (store : MemStore) (now : Int)
    (sid fresh : String) (st : ConversationState)
    (hsid : sid ≠ "")
    (hlook : store.data sid = some st)
    (hexp : now - st.updated_at > store.ttl_seconds) :
    (store.get_or_create now (some sid) fresh).2
      = { session_id := sid, stage := ConversationStage.welcome,
          created_at := now, updated_at := now, intake := {} } := by
  have hget : (store.get now sid).2 = none :=
    memStore_get_expired store now sid st hlook hexp
  unfold MemStore.get_or_create
  rw [if_pos (by simp [truthy, hsid])]
  dsimp only [Option.getD]
  rcases hpair : store.get now sid with ⟨s1, r⟩
  have hr : r = none := by
    rw [hpair] at hget
    exact hget
  rw [hr]
  unfold MemStore.create
  dsimp only
  rw [if_neg hsid]

theorem parseOptDT_roundtrip (t : Option Int)
    (h : ∀ x, t = some x → dt_fromisoformat (dt_isoformat x) = some x) :
    parseOptDT (t.map dt_isoformat) = some t := by
  cases t with
  | none => rfl
  | some x =>
    have hx := h x rfl
    unfold parseOptDT
    dsimp only [Option.map]
    by_cases hz : dt_isoformat x = ""
    · rw [hz] at hx
      have : dt_fromisoformat "" = none := by decide
      rw [this] at hx
      exact absurd hx (by simp)
    · rw [if_neg hz, hx]

/-! ## Fixtures for concrete evaluations -/

/-- A fixed engine configuration whose AI responder always answers, so that
turns which do not raise run to completion. -/
def sampleCfg : EngineConfig :=
  { on_call_doctor_name := "Dr. Rivera"
    doxy_room_url := "https://doxy.me/medikah"
    aiResponder := some (fun _ _ _ _ => some "Understood, thank you.") }

/-- A fully collected intake, as it would stand at `CONFIRM_SUMMARY`. -/
def sampleIntakeFull : IntakeHistory :=
  { patient_name := some "Maria Lopez"
    patient_email := some "maria@example.com"
    symptom_overview := some "bad headache"
    symptom_history := some "started 2 days ago"
    preferred_time_utc := some 1000 }

/-- A session state at the given stage with an empty intake. -/
def sampleState (stg : ConversationStage) : ConversationState :=
  { session_id := "sess-1", stage := stg, created_at := 0, updated_at := 0 }

/-- A session state at the given stage with the given intake. -/
def sampleStateWith (stg : ConversationStage) (i : IntakeHistory) :
    ConversationState :=
  { session_id := "sess-1", stage := stg, created_at := 0, updated_at := 0,
    intake := i }

/-! ## Claims -/

/-- **C1.**  For every message whose stripped text contains an emergency
keyword, regardless of the session's current stage, `process_message` moves
the session to `EMERGENCY_ESCALATED`, sets the intake emergency flag, and
returns a result noting the emergency; moreover the flag is sticky: no
subsequent sequence of `process_message` turns and no run of the scheduling
finalizer ever clears it. -/
theorem c1_emergency_escalation_sticky (cfg : EngineConfig) (now : Int)
    (st : ConversationState) (message : String) (locale tz pn pe : Option String)
    (hne : pyStrip message ≠ "")
    (hem : detect_emergency (pyStrip message) = true) :
    ((processMessage cfg now st message locale tz pn pe).state.stage
        = ConversationStage.emergency_escalated
      ∧ (processMessage cfg now st message locale tz pn pe).state.intake.emergency_flag
          = true
      ∧ ∃ r, (processMessage cfg now st message locale tz pn pe).result = some r
          ∧ r.stage = ConversationStage.emergency_escalated
          ∧ r.emergency_noted = true)
    ∧ (∀ (st2 : ConversationState) (inputs : List TurnInput),
        st2.intake.emergency_flag = true →
        (processTurns cfg st2 inputs).intake.emergency_flag = true)
    ∧ (∀ (st2 : ConversationState) (now2 : Int) (aid : String),
        (finalizeChatScheduling st2 now2 aid).1.intake.emergency_flag
          = st2.intake.emergency_flag) := by
  refine ⟨⟨?_, ?_, ?_⟩, ?_, ?_⟩
  · rw [processMessage_of_emergency cfg now st message locale tz pn pe hne hem]
    exact emergencyTurn_state_stage cfg now _ (pyStrip message) locale
  · rw [processMessage_of_emergency cfg now st message locale tz pn pe hne hem]
    exact emergencyTurn_state_flag cfg now _ (pyStrip message) locale
  · rw [processMessage_of_emergency cfg now st message locale tz pn pe hne hem]
    obtain ⟨r, hr, h1, h2, h3⟩ := emergencyTurn_result_spec cfg now
      (prepopulateIdentity st pn pe) (pyStrip message) locale
    exact ⟨r, hr, h1, h2⟩
  · intro st2 inputs h
    exact processTurns_emergency_flag_mono cfg st2 inputs h
  · intro st2 now2 aid
    unfold finalizeChatScheduling
    split <;> rfl

/-- Concrete instance of `c1_emergency_escalation_sticky`: "I have chest
pain" sent at `COLLECT_NAME`. -/
theorem c1_witness :
    (pyStrip "I have chest pain" ≠ ""
      ∧ detect_emergency (pyStrip "I have chest pain") = true)
    ∧ (processMessage sampleCfg 7 (sampleState ConversationStage.collect_name)
        "I have chest pain" none none none none).state.stage
      = ConversationStage.emergency_escalated
    ∧ (processMessage sampleCfg 7 (sampleState ConversationStage.collect_name)
        "I have chest pain" none none none none).state.intake.emergency_flag
      = true := by
  refine ⟨⟨by decide, by decide⟩, ?_, ?_⟩
  · exact (c1_emergency_escalation_sticky sampleCfg 7
      (sampleState ConversationStage.collect_name) "I have chest pain"
      none none none none (by decide) (by decide)).1.1
  · exact (c1_emergency_escalation_sticky sampleCfg 7
      (sampleState ConversationStage.collect_name) "I have chest pain"
      none none none none (by decide) (by decide)).1.2.1

/-- **C2.**  The should-schedule signal of the shipped code: no turn result
ever carries `should_schedule = true` (the assignments guarding at-most-once
emission sit in unreachable code), `process_message` never changes the
recorded appointment id, and a non-empty non-emergency message at
`CONFIRM_SUMMARY` or `CONFIRM_APPOINTMENT` — the only places the signal
could be emitted — raises instead of producing a result. -/
theorem c2_should_schedule_never_emitted (cfg : EngineConfig) (now : Int)
    (st : ConversationState) (message : String)
    (locale tz pn pe : Option String) :
    (∀ r, (processMessage cfg now st message locale tz pn pe).result = some r →
        r.should_schedule = false)
    ∧ ((processMessage cfg now st message locale tz pn pe).state.intake.appointment_id
        = st.intake.appointment_id)
    ∧ (∀ (inputs : List TurnInput) (t : Turn), t ∈ turnOutputs cfg st inputs →
        ∀ r, t.result = some r → r.should_schedule = false)
    ∧ ((st.stage = ConversationStage.confirm_summary
          ∨ st.stage = ConversationStage.confirm_appointment) →
        pyStrip message ≠ "" →
        detect_emergency (pyStrip message) = false →
        (processMessage cfg now st message locale tz pn pe).result = none) := by
  refine ⟨?_, ?_, ?_, ?_⟩
  · intro r hr
    exact processMessage_should_schedule_false cfg now st message locale tz
      pn pe r hr
  · exact processMessage_appointment_id_preserved cfg now st message locale
      tz pn pe
  · intro inputs t ht r hr
    exact turnOutputs_should_schedule_false cfg st inputs t ht r hr
  · intro hstage hne hem
    have hnw : st.stage ≠ ConversationStage.welcome := by
      rcases hstage with h | h <;> rw [h] <;> decide
    exact (processMessage_off_welcome_crash cfg now st message locale tz pn
      pe hnw hne hem).1

/-- Concrete instance of `c2_should_schedule_never_emitted`: the affirmative
"yes" at `CONFIRM_SUMMARY` with a complete intake and no appointment id
raises instead of signalling should-schedule. -/
theorem c2_witness :
    (pyStrip "yes" ≠ "" ∧ detect_emergency (pyStrip "yes") = false
      ∧ (sampleStateWith ConversationStage.confirm_summary
          sampleIntakeFull).intake.appointment_id = none)
    ∧ (processMessage sampleCfg 3
        (sampleStateWith ConversationStage.confirm_summary sampleIntakeFull)
        "yes" none none none none).result = none := by
  refine ⟨⟨by decide, by decide, by decide⟩, ?_⟩
  exact (c2_should_schedule_never_emitted sampleCfg 3
    (sampleStateWith ConversationStage.confirm_summary sampleIntakeFull)
    "yes" none none none none).2.2.2 (Or.inl rfl) (by decide) (by decide)

/-- **C10.**  A message that is empty after stripping, with no
pre-authenticated identity supplied, is a pure no-op: the returned turn
carries the fixed re-prompt reply at the current stage and the session state
object is unchanged; the store is not updated. -/
theorem c10_empty_message_noop (cfg : EngineConfig) (now : Int)
    (st : ConversationState) (message : String)
    (locale tz pn pe : Option String)
    (hempty : pyStrip message = "")
    (hid : ¬ (truthy pn = true ∧ truthy pe = true)) :
    processMessage cfg now st message locale tz pn pe
      = { state := st, stored := false,
          result := some { reply := empty_prompt
                           stage := st.stage
                           session_id := st.session_id } } := by
  rw [processMessage_of_empty cfg now st message locale tz pn pe hempty]
  rw [prepopulateIdentity_of_not_args st pn pe hid]

/-- Concrete instance of `c10_empty_message_noop`: a whitespace-only message
at `COLLECT_HISTORY`. -/
theorem c10_witness :
    (pyStrip "   " = "" ∧ ¬ (truthy (none : Option String) = true
      ∧ truthy (none : Option String) = true))
    ∧ processMessage sampleCfg 9
        (sampleStateWith ConversationStage.collect_history sampleIntakeFull)
        "   " none none none none
      = { state := sampleStateWith ConversationStage.collect_history
            sampleIntakeFull,
          stored := false,
          result := some { reply := empty_prompt
                           stage := ConversationStage.collect_history
                           session_id := "sess-1" } } := by
  refine ⟨⟨by decide, by decide⟩, ?_⟩
  exact c10_empty_message_noop sampleCfg 9
    (sampleStateWith ConversationStage.collect_history sampleIntakeFull)
    "   " none none none none (by decide) (by decide)

/-- **C3.**  At `WELCOME` with a pre-populated identity, processing a
non-empty non-emergency message raises `AttributeError` (line 364 assigns
the enum member `CONFIRM_IDENTITY`, which does not exist) instead of
entering any identity-confirmation stage; without identity the session
advances to `COLLECT_SYMPTOMS`. -/
theorem c3_confirm_identity_unreachable (cfg : EngineConfig) (now : Int)
    (st : ConversationState) (message : String)
    (locale tz pn pe : Option String)
    (hne : pyStrip message ≠ "")
    (hem : detect_emergency (pyStrip message) = false) :
    (st.stage = ConversationStage.welcome →
      truthy st.intake.patient_name = true →
      truthy st.intake.patient_email = true →
      (processMessage cfg now st message locale tz pn pe).result = none)
    ∧ (st.stage = ConversationStage.welcome →
        ¬ (truthy st.intake.patient_name = true
          ∧ truthy st.intake.patient_email = true) →
        ¬ (truthy pn = true ∧ truthy pe = true) →
        ¬ truthy tz = true →
        (processMessage cfg now st message locale tz pn pe).state.stage
          = ConversationStage.collect_symptoms) := by
  constructor
  · intro hw hn he
    exact processMessage_welcome_identity_crash cfg now st message locale tz
      pn pe hw hn he hne hem
  · intro hw hid hargs htz
    exact processMessage_welcome_advance cfg now st message locale tz pn pe
      hw hid hargs htz hne hem

/-- Concrete instance of `c3_confirm_identity_unreachable`: "hi" at
`WELCOME`, once with and once without a pre-populated identity. -/
theorem c3_witness :
    (pyStrip "hi" ≠ "" ∧ detect_emergency (pyStrip "hi") = false)
    ∧ (processMessage sampleCfg 2
        (sampleStateWith ConversationStage.welcome sampleIntakeFull)
        "hi" none none none none).result = none
    ∧ (processMessage sampleCfg 2 (sampleState ConversationStage.welcome)
        "hi" none none none none).state.stage
      = ConversationStage.collect_symptoms := by
  refine ⟨⟨by decide, by decide⟩, ?_, ?_⟩
  · exact (c3_confirm_identity_unreachable sampleCfg 2
      (sampleStateWith ConversationStage.welcome sampleIntakeFull) "hi"
      none none none none (by decide) (by decide)).1 rfl (by decide) (by decide)
  · exact (c3_confirm_identity_unreachable sampleCfg 2
      (sampleState ConversationStage.welcome) "hi"
      none none none none (by decide) (by decide)).2 rfl (by decide)
      (by decide) (by decide)

/-- **C4.**  Every non-empty non-emergency message processed at
`COLLECT_TIMING` raises `AttributeError` (the line-368 comparison against
the missing `CONFIRM_IDENTITY` member; had it existed, line 405's read of
the undeclared `patient_timezone` slot would raise next): no preferred time
is ever parsed or stored, and the stage stays `COLLECT_TIMING` only because
nothing runs. -/
theorem c4_collect_timing_crash (cfg : EngineConfig) (now : Int)
    (st : ConversationState) (message : String)
    (locale tz pn pe : Option String)
    (hstage : st.stage = ConversationStage.collect_timing)
    (hne : pyStrip message ≠ "")
    (hem : detect_emergency (pyStrip message) = false) :
    (processMessage cfg now st message locale tz pn pe).result = none
    ∧ (processMessage cfg now st message locale tz pn pe).state.stage
        = ConversationStage.collect_timing
    ∧ (processMessage cfg now st message locale tz pn pe).state.intake.preferred_time_utc
        = st.intake.preferred_time_utc := by
  have h := processMessage_off_welcome_crash cfg now st message locale tz pn
    pe (by rw [hstage]; decide) hne hem
  exact ⟨h.1, h.2.2.1.trans hstage, h.2.2.2.2.1⟩

/-- Concrete instance of `c4_collect_timing_crash`: "tomorrow at 3pm" at
`COLLECT_TIMING`. -/
theorem c4_witness :
    (pyStrip "tomorrow at 3pm" ≠ ""
      ∧ detect_emergency (pyStrip "tomorrow at 3pm") = false)
    ∧ (processMessage sampleCfg 4
        (sampleStateWith ConversationStage.collect_timing sampleIntakeFull)
        "tomorrow at 3pm" none none none none).result = none
    ∧ (processMessage sampleCfg 4
        (sampleStateWith ConversationStage.collect_timing sampleIntakeFull)
        "tomorrow at 3pm" none none none none).state.stage
      = ConversationStage.collect_timing := by
  refine ⟨⟨by decide, by decide⟩, ?_, ?_⟩
  · exact (c4_collect_timing_crash sampleCfg 4
      (sampleStateWith ConversationStage.collect_timing sampleIntakeFull)
      "tomorrow at 3pm" none none none none rfl (by decide) (by decide)).1
  · exact (c4_collect_timing_crash sampleCfg 4
      (sampleStateWith ConversationStage.collect_timing sampleIntakeFull)
      "tomorrow at 3pm" none none none none rfl (by decide) (by decide)).2.1

/-- **C6.**  Every non-empty non-emergency message processed at
`CONFIRM_SUMMARY` — affirmative, negative, or a correction request such as
"actually my email is wrong" — raises `AttributeError` before any routing
runs: the stage does not change and the stored email and preferred time are
not cleared. -/
theorem c6_confirm_summary_crash (cfg : EngineConfig) (now : Int)
    (st : ConversationState) (message : String)
    (locale tz pn pe : Option String)
    (hstage : st.stage = ConversationStage.confirm_summary)
    (hne : pyStrip message ≠ "")
    (hem : detect_emergency (pyStrip message) = false) :
    (processMessage cfg now st message locale tz pn pe).result = none
    ∧ (processMessage cfg now st message locale tz pn pe).state.stage
        = ConversationStage.confirm_summary
    ∧ (processMessage cfg now st message locale tz pn pe).state.intake.patient_email
        = st.intake.patient_email
    ∧ (processMessage cfg now st message locale tz pn pe).state.intake.preferred_time_utc
        = st.intake.preferred_time_utc := by
  have h := processMessage_off_welcome_crash cfg now st message locale tz pn
    pe (by rw [hstage]; decide) hne hem
  exact ⟨h.1, h.2.2.1.trans hstage, h.2.2.2.1, h.2.2.2.2.1⟩

/-- Concrete instance of `c6_confirm_summary_crash`: "actually my email is
wrong" at `CONFIRM_SUMMARY` raises; the stored email survives instead of
being cleared and the stage does not move to `COLLECT_EMAIL`. -/
theorem c6_witness :
    (pyStrip "actually my email is wrong" ≠ ""
      ∧ detect_emergency (pyStrip "actually my email is wrong") = false)
    ∧ (processMessage sampleCfg 6
        (sampleStateWith ConversationStage.confirm_summary sampleIntakeFull)
        "actually my email is wrong" none none none none).result = none
    ∧ (processMessage sampleCfg 6
        (sampleStateWith ConversationStage.confirm_summary sampleIntakeFull)
        "actually my email is wrong" none none none none).state.intake.patient_email
      = some "maria@example.com" := by
  refine ⟨⟨by decide, by decide⟩, ?_, ?_⟩
  · exact (c6_confirm_summary_crash sampleCfg 6
      (sampleStateWith ConversationStage.confirm_summary sampleIntakeFull)
      "actually my email is wrong" none none none none rfl (by decide)
      (by decide)).1
  · exact ((c6_confirm_summary_crash sampleCfg 6
      (sampleStateWith ConversationStage.confirm_summary sampleIntakeFull)
      "actually my email is wrong" none none none none rfl (by decide)
      (by decide)).2.2.1).trans (by decide)

/-- **C7.**  Every non-empty non-emergency message processed at
`COLLECT_EMAIL` — valid address or not — raises `AttributeError` before the
email validator is consulted: nothing is stored, the stage does not advance,
and the validation-failure re-prompt never happens. -/
theorem c7_collect_email_crash (cfg : EngineConfig) (now : Int)
    (st : ConversationState) (message : String)
    (locale tz pn pe : Option String)
    (hstage : st.stage = ConversationStage.collect_email)
    (hne : pyStrip message ≠ "")
    (hem : detect_emergency (pyStrip message) = false) :
    (processMessage cfg now st message locale tz pn pe).result = none
    ∧ (processMessage cfg now st message locale tz pn pe).state.stage
        = ConversationStage.collect_email
    ∧ (processMessage cfg now st message locale tz pn pe).state.intake.patient_email
        = st.intake.patient_email := by
  have h := processMessage_off_welcome_crash cfg now st message locale tz pn
    pe (by rw [hstage]; decide) hne hem
  exact ⟨h.1, h.2.2.1.trans hstage, h.2.2.2.1⟩

/-- Concrete instance of `c7_collect_email_crash`: the syntactically valid
address "a@b.com" at `COLLECT_EMAIL` raises; no email is stored. -/
theorem c7_witness :
    (pyStrip "a@b.com" ≠ "" ∧ detect_emergency (pyStrip "a@b.com") = false)
    ∧ (processMessage sampleCfg 8
        (sampleState ConversationStage.collect_email)
        "a@b.com" none none none none).result = none
    ∧ (processMessage sampleCfg 8
        (sampleState ConversationStage.collect_email)
        "a@b.com" none none none none).state.intake.patient_email = none := by
  refine ⟨⟨by decide, by decide⟩, ?_, ?_⟩
  · exact (c7_collect_email_crash sampleCfg 8
      (sampleState ConversationStage.collect_email) "a@b.com"
      none none none none rfl (by decide) (by decide)).1
  · exact ((c7_collect_email_crash sampleCfg 8
      (sampleState ConversationStage.collect_email) "a@b.com"
      none none none none rfl (by decide) (by decide)).2.2).trans (by decide)

/-- **C5, counterexample.**  A completed non-empty turn at `WELCOME` ("hello",
AI responder answering) leaves the notes list empty: no raw-input audit note
is appended, contrary to the claim that every processed non-empty message
appends one. -/
theorem c5_counterexample :
    (processMessage sampleCfg 3 (sampleState ConversationStage.welcome)
        "hello" none none none none).state.intake.notes = []
    ∧ ((processMessage sampleCfg 3 (sampleState ConversationStage.welcome)
        "hello" none none none none).result).isSome = true := by
  exact ⟨by decide, by decide⟩

/-- **C5, amended.**  The notes list grows only through identity
pre-population and the emergency short-circuit: after any turn it equals the
previous notes, plus the `identity_from_auth` note exactly when the
pre-population guard held, plus the `emergency_flagged` note exactly when
the stripped text was non-empty and matched an emergency keyword.  No other
turn — in particular none at `WELCOME`, and no data-collection or
confirmation turn — appends a raw-input audit note. -/
theorem c5_notes_only_from_auth_and_emergency (cfg : EngineConfig)
    (now : Int) (st : ConversationState) (message : String)
    (locale tz pn pe : Option String) :
    (processMessage cfg now st message locale tz pn pe).state.intake.notes
      = st.intake.notes
        ++ (if identityPrepopCond st pn pe
            then [identity_from_auth_note pn pe] else [])
        ++ (if pyStrip message ≠ ""
              ∧ detect_emergency (pyStrip message) = true
            then ["emergency_flagged: " ++ pyStrip message] else []) := by
  by_cases h0 : pyStrip message = ""
  · have hEmergIf : (if pyStrip message ≠ ""
          ∧ detect_emergency (pyStrip message) = true
        then ["emergency_flagged: " ++ pyStrip message]
        else []) = ([] : List String) :=
      if_neg (fun hc => hc.1 h0)
    rw [processMessage_of_empty cfg now st message locale tz pn pe h0]
    dsimp only
    rw [prepopulateIdentity_notes, hEmergIf, List.append_nil]
  · by_cases h1 : detect_emergency (pyStrip message) = true
    · have hEmergIf : (if pyStrip message ≠ ""
            ∧ detect_emergency (pyStrip message) = true
          then ["emergency_flagged: " ++ pyStrip message]
          else []) = ["emergency_flagged: " ++ pyStrip message] :=
        if_pos ⟨h0, h1⟩
      rw [processMessage_of_emergency cfg now st message locale tz pn pe h0 h1]
      rw [emergencyTurn_state_notes, prepopulateIdentity_notes, hEmergIf]
    · have hem := bool_eq_false_of_ne_true h1
      have hEmergIf : (if pyStrip message ≠ ""
            ∧ detect_emergency (pyStrip message) = true
          then ["emergency_flagged: " ++ pyStrip message]
          else []) = ([] : List String) :=
        if_neg (fun hc => h1 hc.2)
      rw [processMessage_of_active cfg now st message locale tz pn pe h0 hem]
      have hnotes2 : (detectLocale (prepopulateIdentity st pn pe)
            (pyStrip message) locale).intake.notes
          = st.intake.notes
            ++ (if identityPrepopCond st pn pe
                then [identity_from_auth_note pn pe] else []) := by
        rw [detectLocale_notes, prepopulateIdentity_notes]
      rw [hEmergIf, List.append_nil]
      split
      · dsimp only
        rw [prepopulateIdentity_notes]
      · cases hd : stageDispatch (detectLocale (prepopulateIdentity st pn pe)
            (pyStrip message) locale) with
        | none =>
          dsimp only
          exact hnotes2
        | some p =>
          obtain ⟨st3, b⟩ := p
          dsimp only
          obtain ⟨hb, hw, hout⟩ := stageDispatch_some _ _ _ hd
          have h3 : st3.intake.notes
              = st.intake.notes
                ++ (if identityPrepopCond st pn pe
                    then [identity_from_auth_note pn pe] else []) := by
            rw [hout]
            dsimp only
            exact hnotes2
          rcases responseStep_shape cfg now st3 (pyStrip message) locale b with
            hs | ⟨resp, hs⟩
          · rw [hs]
            exact h3
          · rw [hs, finishTurn_state_notes]
            exact h3

/-- Concrete instance of `c5_notes_only_from_auth_and_emergency`: an
emergency turn at `COLLECT_NAME` appends exactly the emergency note. -/
theorem c5_witness :
    (processMessage sampleCfg 3 (sampleState ConversationStage.collect_name)
        "I have chest pain" none none none none).state.intake.notes
      = ["emergency_flagged: I have chest pain"] := by
  have h := c5_notes_only_from_auth_and_emergency sampleCfg 3
    (sampleState ConversationStage.collect_name) "I have chest pain"
    none none none none
  rw [h]
  decide

/-- **C8.**  A session whose state has been inactive for longer than the TTL
(90 minutes) is absent from `get`, and the next `get_or_create` for the same
id yields a fresh `WELCOME` state with an empty intake, keyed by that id. -/
theorem c8_expired_session_fresh_welcome (store : MemStore) (now : Int)
    (sid fresh : String) (st : ConversationState)
    (httl : store.ttl_seconds = SESSION_TTL_MINUTES * 60)
    (hsid : sid ≠ "")
    (hlook : store.data sid = some st)
    (hexp : now - st.updated_at > SESSION_TTL_MINUTES * 60) :
    (store.get now sid).2 = none
    ∧ (store.get_or_create now (some sid) fresh).2
      = { session_id := sid, stage := ConversationStage.welcome,
          created_at := now, updated_at := now, intake := {} } := by
  have hexp2 : now - st.updated_at > store.ttl_seconds := by
    rw [httl]
    exact hexp
  exact ⟨memStore_get_expired store now sid st hlook hexp2,
    memStore_get_or_create_expired store now sid fresh st hsid hlook hexp2⟩

/-- A one-session in-memory store holding an intake-rich state last touched
at instant 0. -/
def sampleStore : MemStore :=
  { data := fun k =>
      if k = "sess-1" then
        some (sampleStateWith ConversationStage.collect_email sampleIntakeFull)
      else none }

/-- Concrete instance of `c8_expired_session_fresh_welcome`: at instant 5401
(one second past the 5400-second TTL), the session stored at instant 0 is
gone and `get_or_create` rebuilds a fresh `WELCOME` state. -/
theorem c8_witness :
    (sampleStore.ttl_seconds = SESSION_TTL_MINUTES * 60
      ∧ "sess-1" ≠ ""
      ∧ sampleStore.data "sess-1"
        = some (sampleStateWith ConversationStage.collect_email sampleIntakeFull)
      ∧ (5401 : Int) - (sampleStateWith ConversationStage.collect_email
          sampleIntakeFull).updated_at > SESSION_TTL_MINUTES * 60)
    ∧ (sampleStore.get 5401 "sess-1").2 = none
    ∧ (sampleStore.get_or_create 5401 (some "sess-1") "tok").2
      = { session_id := "sess-1", stage := ConversationStage.welcome,
          created_at := 5401, updated_at := 5401, intake := {} } := by
  refine ⟨⟨by decide, by decide, by decide, by decide⟩, ?_, ?_⟩
  · exact (c8_expired_session_fresh_welcome sampleStore 5401 "sess-1" "tok"
      (sampleStateWith ConversationStage.collect_email sampleIntakeFull)
      (by decide) (by decide) (by decide) (by decide)).1
  · exact (c8_expired_session_fresh_welcome sampleStore 5401 "sess-1" "tok"
      (sampleStateWith ConversationStage.collect_email sampleIntakeFull)
      (by decide) (by decide) (by decide) (by decide)).2

/-- **C9.**  Serializing a `ConversationState` to its row form and
deserializing it back is the identity: the session id, stage, timestamps,
every intake field and the message history in its original order are
preserved (given that the timestamp codec inverts on the instants stored in
this state, which is the documented `fromisoformat`/`isoformat` contract). -/
theorem c9_row_roundtrip (state : ConversationState)
    (h1 : dt_fromisoformat (dt_isoformat state.created_at)
      = some state.created_at)
    (h2 : dt_fromisoformat (dt_isoformat state.updated_at)
      = some state.updated_at)
    (h3 : ∀ x, state.intake.preferred_time_utc = some x →
      dt_fromisoformat (dt_isoformat x) = some x)
    (h4 : ∀ x, state.intake.appointment_confirmed_at = some x →
      dt_fromisoformat (dt_isoformat x) = some x) :
    row_to_state (state_to_row state) = some state := by
  unfold row_to_state state_to_row
  dsimp only
  rw [parseOptDT_roundtrip _ h3]
  rw [parseOptDT_roundtrip _ h4]
  rw [stageOfValue_value, h1, h2]
  rfl

/-- Concrete instance of `c9_row_roundtrip` on an intake-rich state. -/
theorem c9_witness :
    (dt_fromisoformat (dt_isoformat (sampleStateWith
        ConversationStage.confirm_summary sampleIntakeFull).created_at)
      = some (sampleStateWith ConversationStage.confirm_summary
          sampleIntakeFull).created_at)
    ∧ row_to_state (state_to_row (sampleStateWith
        ConversationStage.confirm_summary sampleIntakeFull))
      = some (sampleStateWith ConversationStage.confirm_summary
          sampleIntakeFull) := by
  refine ⟨by decide, ?_⟩
  exact c9_row_roundtrip
    (sampleStateWith ConversationStage.confirm_summary sampleIntakeFull)
    (by decide) (by decide) (fun x hx => by
      rw [show x = 1000 from by
        have := hx
        simp [sampleStateWith, sampleIntakeFull] at this
        exact this.symm]
      decide)
    (fun x hx => absurd hx (by simp [sampleStateWith, sampleIntakeFull]))

end Medikah
